import Mathlib

/-!
Shallow embedding of the `newt_stub` UEFI second-stage bootloader
(`src/main.rs`) and verification of its specification claims.

The embedding models the boot pipeline over explicit data:
- a directory listing is a `List DirEntry` (the firmware's
  `read_entry` capability yields the entries in order, then the
  end-of-directory signal; the raw protocol mechanics are an external
  collaborator per the spec's capability surface);
- the kernel file handle's behaviour is a `KernelFileModel` holding the
  results of the firmware calls `get_info`, `into_type`, `read` and of
  `goblin::elf::Elf::parse` on the file's bytes;
- heap allocations (all served by the firmware pool allocator) and the
  irreversible pipeline steps are recorded as an `Event` trace;
- machine integers are `Nat`; the target is x86_64 (`extern "win64"`),
  so `usize` is 64 bits wide and conversions check against `2 ^ 64`.
-/

namespace NewtStub

/-- `EFI_KERNEL_NAME` constant, main.rs line 30. -/
def EFI_KERNEL_NAME : String := "KERNEL"

/-- Bit value of `FileAttribute::ARCHIVE` (UEFI file attribute bit 5). -/
def FileAttribute_ARCHIVE : Nat := 0x20

/-- Bit value of `FileAttribute::READ_ONLY` (UEFI file attribute bit 0). -/
def FileAttribute_READ_ONLY : Nat := 0x01

/-- `FileMode` as used by `dir.open` (uefi `proto::media::file::FileMode`). -/
inductive FileMode where
  | read
  | readWrite
  | createReadWrite
deriving DecidableEq

/-- One directory entry as surfaced by `dir.read_entry`: its attribute
bitset (`fi.attribute()`, a `Nat` bitset) and its file name
(`fi.file_name()`).  The source calls the attribute field `attribute`;
`attr` is used here because `attribute` is a Lean keyword. -/
structure DirEntry where
  attr : Nat
  name : String
deriving DecidableEq

/-- A file handle produced by `dir.open(name, mode, attribute)`. -/
structure OpenedFile where
  name : String
  mode : FileMode
  open_attr : Nat
deriving DecidableEq

/-- ELF program header fields used by the loader loop
(main.rs lines 279-297). -/
structure ProgramHeader where
  p_offset : Nat
  p_vaddr : Nat
  p_paddr : Nat
  p_filesz : Nat
  p_memsz : Nat
deriving DecidableEq

/-- Result of `goblin::elf::Elf::parse`: the entry address (`e_entry`,
a `u64`), the program headers, and, for each section header, the result
of `obj.shdr_strtab.get_at(s.sh_name)` (`none` models a name that fails
to resolve, which the source turns into a panic via `expect`).  Section
addresses, sizes and flags are only logged by the source and carry no
behaviour, so they are not modelled. -/
structure ElfObj where
  e_entry : Nat
  program_headers : List ProgramHeader
  section_names : List (Option String)

/-- `FileType` of `kernel_handle.into_type()`. -/
inductive FType where
  | regular
  | dir
deriving DecidableEq

/-- Behaviour of the kernel file handle under the firmware calls the
loader makes: `info` is `get_info::<FileInfo>` (yielding `file_size`),
`ftype` is `into_type`, `read_res` is `kern.read` (yielding the byte
count), and `parse_res` is the outcome of `goblin::elf::Elf::parse` on
the file's bytes. -/
structure KernelFileModel where
  info : Except Unit Nat
  ftype : Except Unit FType
  read_res : Except Unit Nat
  parse_res : Except String ElfObj

/-- One raw memory move performed by `bs.memmove(dst, src, count)`. -/
structure CopyOp where
  dst : Nat
  src : Nat
  count : Nat
deriving DecidableEq

/-- Observable pipeline events: firmware-pool allocations
(`create_vec_buf` buffers and the `Box` holding the `EBootTable`),
the boot-services exit call, the handoff update, and the jump to the
kernel entry point. -/
inductive Event where
  | allocBuf (size : Nat)
  | allocEBoot
  | exitBS
  | updateEBoot
  | jumpKernel (entry : Nat)
deriving DecidableEq

/-- Raw parts of a `Vec<u8>` as produced by `into_raw_parts`:
pointer, contents, capacity.  `Vec::with_capacity(n)` followed by
`set_len(n)` gives capacity `n`. -/
structure RawVec where
  ptr : Nat
  data : List Nat
  cap : Nat
deriving DecidableEq

/-- The `EBootTable` handoff structure (main.rs lines 32-38): the
post-exit runtime system table (modelled as an opaque `Nat` id), and
the raw parts of the memory-map buffer. -/
structure EBootTable where
  sys_table : Option Nat
  mmap_buf : Option Nat
  mmap_len : Option Nat
  mmap_cap : Option Nat
deriving DecidableEq

/-- `EBootTable::new` (main.rs lines 41-49): all four slots empty. -/
def EBootTable.new : EBootTable :=
  { sys_table := none, mmap_buf := none, mmap_len := none, mmap_cap := none }

/-- `EBootTable::update` (main.rs lines 51-57): destructures the buffer
into raw parts and fills all four slots. -/
def EBootTable.update (_t : EBootTable) (st : Nat) (v : RawVec) : EBootTable :=
  { sys_table := some st, mmap_buf := some v.ptr,
    mmap_len := some v.data.length, mmap_cap := some v.cap }

/-- The zeroing loop of `create_vec_buf`
(`for e in &mut data { *e = 0 }`, main.rs lines 331-333). -/
def zero_fill : List Nat → List Nat
  | [] => []
  | _ :: rest => 0 :: zero_fill rest

/-- `create_vec_buf` (main.rs lines 321-338): allocates `vec_size`
bytes of uninitialized memory and zeroes every element.  The oracle
`mem` supplies the arbitrary junk contents the uninitialized
allocation starts with. -/
def create_vec_buf (mem : Nat → Nat) (vec_size : Nat) : List Nat :=
  zero_fill ((List.range vec_size).map mem)

/-- Width of `usize` on the x86_64 (`extern "win64"`) target. -/
def USIZE_BITS : Nat := 64

/-- `TryInto<usize>` on an unsigned value: succeeds exactly when the
value fits the native pointer width. -/
def usize_try_from (n : Nat) : Option Nat :=
  if n < 2 ^ USIZE_BITS then some n else none

/-- Rounding of a nonnegative integer to the nearest `f32`
(`map_size as f32`, main.rs line 116): values up to `2 ^ 24` are exact;
above that the value is rounded to the nearest multiple of the unit in
the last place, ties to even mantissa.  Map sizes are far below the
`f32` overflow threshold, so no infinity case arises. -/
def f32_round_nat (n : Nat) : Nat :=
  if n ≤ 2 ^ 24 then n
  else
    let u := 2 ^ (Nat.log2 n - 23)
    let q := n / u
    let r := n % u
    if 2 * r < u then q * u
    else if u < 2 * r then (q + 1) * u
    else if q % 2 = 0 then q * u else (q + 1) * u

/-- The memory-map buffer size computed at main.rs line 116:
`map_size + (map_size as f32 * 0.125) as usize`.  Multiplying an `f32`
by `0.125` only shifts the exponent, so it is exact, and the `as usize`
cast truncates toward zero; hence the second summand is
`f32_round_nat map_size / 8` in natural division. -/
def mmap_vec_size (map_size : Nat) : Nat :=
  map_size + f32_round_nat map_size / 8

/-- The program-header copy loop of `load_kernel_image`
(main.rs lines 279-297): headers with `p_vaddr == 0 && p_paddr == 0`
are skipped; every other header causes
`bs.memmove(p_vaddr, buffer_base + p_offset, p_filesz)`.
(`p_filesz.try_into()` is `u64` to `usize` on a 64-bit target and
always succeeds.) -/
def load_segments (base : Nat) : List ProgramHeader → List CopyOp
  | [] => []
  | ph :: rest =>
    if ph.p_vaddr = 0 ∧ ph.p_paddr = 0 then
      load_segments base rest
    else
      CopyOp.mk ph.p_vaddr (base + ph.p_offset) ph.p_filesz :: load_segments base rest

/-- `load_kernel_image` (main.rs lines 246-319) over the file model.
`base` is the address of the image buffer (`src.as_ptr()`).  Returns
the entry point, the copy operations performed, and the allocation
events, or the panic message on a fatal path.  Faithful quirks kept
from the source: a failed ELF parse is only logged (`error!`) and the
function then returns the initial `entry_point = 0x0` normally; the
`read` result is only inspected (via `expect`) after a successful
parse; an unresolvable section name panics via `expect`. -/
def load_kernel_image (mem : Nat → Nat) (f : KernelFileModel) (base : Nat) :
    Except String (Nat × List CopyOp × List Event) :=
  let _size_buf := create_vec_buf mem 4096
  match f.info with
  | .error _ => .error "error getting kernel image file info"
  | .ok kernel_size =>
    match f.ftype with
    | .error _ => .error "todo: into_type failed"
    | .ok .dir => .error "todo: kernel file is a directory"
    | .ok .regular =>
      let _kern_buf := create_vec_buf mem (kernel_size + 1)
      match f.parse_res with
      | .error _ =>
        .ok (0, [], [.allocBuf 4096, .allocBuf (kernel_size + 1)])
      | .ok obj =>
        match f.read_res with
        | .error _ => .error "error reading kernel from disk"
        | .ok _ =>
          match usize_try_from obj.e_entry with
          | none => .error "unable to convert to platform native entry point"
          | some entry_point =>
            if obj.section_names.all (fun n => n.isSome) then
              .ok (entry_point, load_segments base obj.program_headers,
                   [.allocBuf 4096, .allocBuf (kernel_size + 1)])
            else .error "error parsing section name"

/-- Truncation performed by copying a file name into the bounded
`ArrayString<64>` scratch (main.rs lines 210-211): a name longer than
the buffer keeps only the prefix that fits (the write result is
discarded by the source, so overflow is silent). -/
def trunc_name (s : String) : String := String.mk (s.data.take 64)

/-- The candidate test of the directory scan (main.rs lines 209-215):
the attribute bitset must equal `FileAttribute::ARCHIVE` exactly, and
the truncated name must equal the fixed kernel name. -/
def is_kernel_entry (fi : DirEntry) : Bool :=
  fi.attr == FileAttribute_ARCHIVE && trunc_name fi.name == EFI_KERNEL_NAME

/-- The `loop` of `get_kernel_image_handle` (main.rs lines 202-226),
threading the `kernel_exists` flag: the scan always consumes the whole
listing (no early break on a match) and sets the flag on a match. -/
def scan_loop (kernel_exists : Bool) : List DirEntry → Bool
  | [] => kernel_exists
  | fi :: rest =>
    let ke :=
      if fi.attr == FileAttribute_ARCHIVE then
        if trunc_name fi.name == EFI_KERNEL_NAME then true else kernel_exists
      else kernel_exists
    scan_loop ke rest

/-- `get_kernel_image_handle` (main.rs lines 149-244) over an abstract
directory listing.  `n_handles` is the number of filesystem handles
reported by `locate_handle`; with zero handles the `buf[0]` access
panics (no boot volume).  The raw protocol mechanics (protocol open,
volume open, `read_entry` buffering) are external collaborators and
are modelled as succeeding, yielding the listing's entries in order.
On a match the source reopens the fixed kernel name read-only; with no
match it warns and returns `None` — not a panic.  The returned event
list records the 128-byte `dir_buf` allocation. -/
def get_kernel_image_handle (mem : Nat → Nat) (n_handles : Nat)
    (entries : List DirEntry) : Except String (Option OpenedFile × List Event) :=
  if n_handles = 0 then .error "panic: no filesystem handles"
  else
    let _dir_buf := create_vec_buf mem 128
    if scan_loop false entries then
      .ok (some (OpenedFile.mk EFI_KERNEL_NAME FileMode.read FileAttribute_READ_ONLY),
           [.allocBuf 128])
    else
      .ok (none, [.allocBuf 128])

/-- Inputs that determine one run of `efi_main` (main.rs lines 61-146):
the number of filesystem handles, the directory listing of the boot
volume's root, the kernel file's behaviour, the firmware-reported
memory-map size, the address the memory-map buffer gets allocated at,
the address of the image buffer (`src.as_ptr()`), the post-exit
runtime system table id, and whether `exit_boot_services` succeeds
(its failure hits `todo!()`, a panic). -/
structure BootParams where
  n_handles : Nat
  entries : List DirEntry
  file : KernelFileModel
  map_size : Nat
  mmap_ptr : Nat
  kern_base : Nat
  rt_handle : Nat
  exit_ok : Bool

/-- The core pipeline of `efi_main` (main.rs lines 100-145), from the
locator call to the jump to the kernel: locate the kernel file (a
`None` result panics), load the image, allocate the memory-map buffer
of `mmap_vec_size map_size` bytes, allocate the `EBootTable` before
exiting boot services, exit boot services, update the table with the
runtime system table and the raw parts of the map buffer, and jump.
Returns the event trace and the final table, or the panic message. -/
def efi_main (mem : Nat → Nat) (p : BootParams) :
    Except String (List Event × EBootTable) :=
  match get_kernel_image_handle mem p.n_handles p.entries with
  | .error e => .error e
  | .ok (none, _) => .error "unable to get kernel image file handle"
  | .ok (some _kh, locEvents) =>
    match load_kernel_image mem p.file p.kern_base with
    | .error e => .error e
    | .ok (kernel_entry, _copies, loadEvents) =>
      let vec_size := mmap_vec_size p.map_size
      let mmap_buf : RawVec := RawVec.mk p.mmap_ptr (create_vec_buf mem vec_size) vec_size
      let eboot := EBootTable.new
      if p.exit_ok then
        let eboot := eboot.update p.rt_handle mmap_buf
        .ok (locEvents ++ loadEvents ++
              [.allocBuf vec_size, .allocEBoot, .exitBS, .updateEBoot,
               .jumpKernel kernel_entry],
             eboot)
      else .error "todo: exit_boot_services failed"

/-- Event classifiers used to state the temporal claims. -/
def isAllocEvent : Event → Bool
  | .allocBuf _ => true
  | .allocEBoot => true
  | _ => false

def isExitEvent : Event → Bool
  | .exitBS => true
  | _ => false

def isEBootAllocEvent : Event → Bool
  | .allocEBoot => true
  | _ => false

def isUpdateEvent : Event → Bool
  | .updateEBoot => true
  | _ => false

/-- Prefix of a trace strictly before its first boot-services-exit
event. -/
def before_first_exit (tr : List Event) : List Event :=
  tr.takeWhile (fun ev => !isExitEvent ev)

/-- Suffix of a trace strictly after its first boot-services-exit
event. -/
def after_first_exit (tr : List Event) : List Event :=
  (tr.dropWhile (fun ev => !isExitEvent ev)).tail

/-- Uninitialized-memory oracle that happens to be all zero. -/
def memZero : Nat → Nat := fun _ => 0

/-- Uninitialized-memory oracle full of nonzero junk. -/
def memJunk : Nat → Nat := fun i => i + 0xAA

/-- The loadable program header of the spec's test scenario:
offset 0x1000, vaddr 0x200000, filesz 0x10, memsz 0x10. -/
def ph_demo : ProgramHeader :=
  ProgramHeader.mk 0x1000 0x200000 0x200000 0x10 0x10

/-- A header with both target addresses zero (skipped by the loader). -/
def ph_zero : ProgramHeader := ProgramHeader.mk 0x2000 0 0 0x20 0x20

/-- A minimal parsed image with entry 0x200000. -/
def elf_small : ElfObj := ElfObj.mk 0x200000 [ph_demo] [some ".text"]

/-- A parsed image whose entry address exceeds the native width. -/
def elf_big : ElfObj := ElfObj.mk (2 ^ 64) [] []

/-- A regular, readable 16-byte kernel file parsing to `elf_small`. -/
def kf_ok : KernelFileModel :=
  KernelFileModel.mk (Except.ok 0x10) (Except.ok FType.regular)
    (Except.ok 0x10) (Except.ok elf_small)

/-- Like `kf_ok` but parsing to `elf_big`. -/
def kf_big : KernelFileModel :=
  KernelFileModel.mk (Except.ok 0x10) (Except.ok FType.regular)
    (Except.ok 0x10) (Except.ok elf_big)

/-- A regular, readable 16-byte kernel file whose contents are not a
parseable ELF image (for instance all zero bytes, which is exactly what
an unreadable file leaves in the zero-initialized image buffer). -/
def kf_parse_fail : KernelFileModel :=
  KernelFileModel.mk (Except.ok 0x10) (Except.ok FType.regular)
    (Except.ok 0x10) (Except.error "Bad magic number")

/-- Directory entries of the spec's mock filesystem scenario. -/
def dir_readme : DirEntry := DirEntry.mk 0 "README"

def dir_kernel : DirEntry := DirEntry.mk 0x20 "KERNEL"

def dir_log : DirEntry := DirEntry.mk 0x20 "LOG"

def demo_listing : List DirEntry := [dir_readme, dir_kernel, dir_log]

/-- A kernel-named entry whose attributes are ARCHIVE plus READ_ONLY. -/
def dir_kernel_ro : DirEntry := DirEntry.mk 0x21 "KERNEL"

/-- A concrete successful boot: one filesystem handle, the mock
listing, the readable `kf_ok` kernel, reported map size 8, and a
successful boot-services exit. -/
def boot_demo : BootParams :=
  BootParams.mk 1 demo_listing kf_ok 8 0x8000 0x100 0x55 true

/-- The event trace of the `boot_demo` run
(`mmap_vec_size 8 = 8 + 1 = 9`). -/
def tr_demo : List Event :=
  [Event.allocBuf 128, Event.allocBuf 4096, Event.allocBuf 17,
   Event.allocBuf 9, Event.allocEBoot, Event.exitBS, Event.updateEBoot,
   Event.jumpKernel 0x200000]

/-- The handoff table produced by the `boot_demo` run. -/
def eb_demo : EBootTable :=
  EBootTable.mk (some 0x55) (some 0x8000) (some 9) (some 9)

theorem zero_fill_eq_replicate (l : List Nat) :
    zero_fill l = List.replicate l.length 0 := by
  induction l with
  | nil => rfl
  | cons x xs ih => simp [zero_fill, ih, List.replicate]

theorem create_vec_buf_eq_replicate (mem : Nat → Nat) (n : Nat) :
    create_vec_buf mem n = List.replicate n 0 := by
  simp [create_vec_buf, zero_fill_eq_replicate]

theorem f32_round_nat_of_le (n : Nat) (h : n ≤ 2 ^ 24) :
    f32_round_nat n = n := by
  unfold f32_round_nat
  rw [if_pos h]

theorem scan_loop_spec (l : List DirEntry) (ks : Bool) :
    scan_loop ks l = (ks || l.any is_kernel_entry) := by
  induction l generalizing ks with
  | nil => simp [scan_loop]
  | cons fi rest ih =>
    simp only [scan_loop, List.any_cons, ih, is_kernel_entry]
    by_cases ha : fi.attr == FileAttribute_ARCHIVE
    · by_cases hn : trunc_name fi.name == EFI_KERNEL_NAME
      · simp [ha, hn]
      · simp [ha, hn]
    · simp [ha, Bool.or_assoc]

theorem get_kernel_image_handle_ok_events (mem : Nat → Nat) (n : Nat)
    (entries : List DirEntry) (r : Option OpenedFile) (ev : List Event)
    (h : get_kernel_image_handle mem n entries = .ok (r, ev)) :
    ev = [Event.allocBuf 128] := by
  unfold get_kernel_image_handle at h
  split at h
  · exact Except.noConfusion h
  · split at h
    all_goals
      injection h with h1
      injection h1 with h2 h3
      exact h3.symm

theorem load_kernel_image_ok_events (mem : Nat → Nat) (f : KernelFileModel)
    (base entry : Nat) (copies : List CopyOp) (ev : List Event)
    (h : load_kernel_image mem f base = .ok (entry, copies, ev)) :
    ∃ ks, f.info = Except.ok ks ∧ ev = [Event.allocBuf 4096, Event.allocBuf (ks + 1)] := by
  unfold load_kernel_image at h
  cases hinfo : f.info with
  | error e => simp [hinfo] at h
  | ok ks =>
    refine ⟨ks, rfl, ?_⟩
    cases hty : f.ftype with
    | error e => simp [hinfo, hty] at h
    | ok ft =>
      cases ft with
      | dir => simp [hinfo, hty] at h
      | regular =>
        cases hp : f.parse_res with
        | error e =>
          simp [hinfo, hty, hp] at h
          exact h.2.2.symm
        | ok obj =>
          cases hr : f.read_res with
          | error e => simp [hinfo, hty, hp, hr] at h
          | ok b =>
            cases hu : usize_try_from obj.e_entry with
            | none => simp [hinfo, hty, hp, hr, hu] at h
            | some ep =>
              cases hsec : obj.section_names.all (fun n => n.isSome) with
              | false => simp [hinfo, hty, hp, hr, hu, hsec] at h
              | true =>
                simp [hinfo, hty, hp, hr, hu, hsec] at h
                exact h.2.2.symm

/-- Shape of the trace and the handoff table of any successful run. -/
theorem efi_main_ok_shape (mem : Nat → Nat) (p : BootParams)
    (tr : List Event) (eb : EBootTable)
    (h : efi_main mem p = .ok (tr, eb)) :
    ∃ ks entry,
      p.file.info = Except.ok ks ∧
      tr = [Event.allocBuf 128, Event.allocBuf 4096, Event.allocBuf (ks + 1),
            Event.allocBuf (mmap_vec_size p.map_size), Event.allocEBoot,
            Event.exitBS, Event.updateEBoot, Event.jumpKernel entry] ∧
      eb = EBootTable.mk (some p.rt_handle) (some p.mmap_ptr)
            (some (create_vec_buf mem (mmap_vec_size p.map_size)).length)
            (some (mmap_vec_size p.map_size)) := by
  unfold efi_main at h
  cases hloc : get_kernel_image_handle mem p.n_handles p.entries with
  | error e => simp [hloc] at h
  | ok pr =>
    obtain ⟨r, locEv⟩ := pr
    cases r with
    | none => simp [hloc] at h
    | some kh =>
      cases hload : load_kernel_image mem p.file p.kern_base with
      | error e => simp [hloc, hload] at h
      | ok tpl =>
        obtain ⟨entry, copies, loadEv⟩ := tpl
        cases hex : p.exit_ok with
        | false => simp [hloc, hload, hex] at h
        | true =>
          obtain ⟨ks, hks, hev⟩ :=
            load_kernel_image_ok_events mem p.file p.kern_base entry copies loadEv hload
          have hlocEv :=
            get_kernel_image_handle_ok_events mem p.n_handles p.entries (some kh) locEv hloc
          simp [hloc, hload, hex] at h
          refine ⟨ks, entry, hks, ?_, ?_⟩
          · rw [← h.1, hlocEv, hev]
            rfl
          · rw [← h.2]
            rfl

/-- C10: for every requested size `n`, `create_vec_buf` returns a byte
buffer of length exactly `n` with every byte zero, whatever junk the
uninitialized allocation started with; every pipeline buffer (the
directory scratch buffer, the file-info buffer, the kernel image
buffer of `file_size + 1` bytes, and the memory-map buffer) is
allocated through it, so each is fully zero-initialized before use. -/
theorem c10_create_vec_buf_zero_initialized (mem : Nat → Nat) (n : Nat) :
    (create_vec_buf mem n).length = n ∧ ∀ b ∈ create_vec_buf mem n, b = 0 := by
  rw [create_vec_buf_eq_replicate]
  exact ⟨List.length_replicate n 0, fun b hb => List.eq_of_mem_replicate hb⟩

theorem c10_create_vec_buf_zero_initialized_witness :
    (create_vec_buf memJunk 5).length = 5 ∧ ∀ b ∈ create_vec_buf memJunk 5, b = 0 :=
  c10_create_vec_buf_zero_initialized memJunk 5

/-- C4 (amended): for a reported memory-map size `S` the snapshot
buffer allocated before boot-services exit has exactly
`S + (S as f32 * 0.125) as usize = S + f32_round_nat S / 8` bytes, and
every byte of it is zero-initialized before use.  The size is always
at least `S`; for `S` in the exact `f32` range (`S ≤ 2 ^ 24`, where the
conversion is lossless) it equals `S * 1.125` when 8 divides `S` and
falls strictly below `S * 1.125` otherwise.  (Outside the exact range
the `f32` rounding can shift the second summand in either direction,
so only the exact formula and the `≥ S` bound are asserted there.) -/
theorem c4_mmap_buffer_size_and_zeroing (mem : Nat → Nat) (s : Nat) :
    (create_vec_buf mem (mmap_vec_size s)).length = s + f32_round_nat s / 8 ∧
    s ≤ (create_vec_buf mem (mmap_vec_size s)).length ∧
    (∀ b ∈ create_vec_buf mem (mmap_vec_size s), b = 0) ∧
    (s % 8 = 0 → s ≤ 2 ^ 24 →
      8 * (create_vec_buf mem (mmap_vec_size s)).length = 9 * s) ∧
    (s % 8 ≠ 0 → s ≤ 2 ^ 24 →
      8 * (create_vec_buf mem (mmap_vec_size s)).length < 9 * s) := by
  rw [create_vec_buf_eq_replicate, List.length_replicate]
  refine ⟨rfl, Nat.le_add_right s _, fun b hb => List.eq_of_mem_replicate hb,
    ?_, ?_⟩
  · intro h8 h24
    show 8 * (s + f32_round_nat s / 8) = 9 * s
    rw [f32_round_nat_of_le s h24]
    omega
  · intro h8 h24
    show 8 * (s + f32_round_nat s / 8) < 9 * s
    rw [f32_round_nat_of_le s h24]
    omega

theorem c4_mmap_buffer_size_and_zeroing_witness :
    8 * (create_vec_buf memZero (mmap_vec_size 8)).length = 9 * 8 ∧
    8 * (create_vec_buf memZero (mmap_vec_size 4)).length < 9 * 4 :=
  ⟨(c4_mmap_buffer_size_and_zeroing memZero 8).2.2.2.1 (by decide) (by decide),
   (c4_mmap_buffer_size_and_zeroing memZero 4).2.2.2.2 (by decide) (by decide)⟩

/-- C4 counterexample to the claim as stated: for reported size
`S = 4` the allocated buffer has `4 + (4 as f32 * 0.125) as usize
= 4 + 0 = 4` bytes, and `4 < 4 * 1.125 = 4.5`, i.e. the buffer is NOT
at least `S * 1.125` bytes (stated integrally as `9 * S ≤ 8 * size`). -/
theorem c4_claim_counterexample :
    ¬ (9 * 4 ≤ 8 * (create_vec_buf memZero (mmap_vec_size 4)).length) := by
  decide

/-- C1: the copy loop over the parsed program headers emits, for every
header with `(p_vaddr, p_paddr) ≠ (0, 0)`, exactly the raw move of
`p_filesz` bytes from `buffer base + p_offset` to `p_vaddr`, and every
emitted move comes from such a header — headers with both addresses
zero produce no copy at all. -/
theorem c1_load_segments_copy_exactly (base : Nat) (phs : List ProgramHeader) :
    (∀ ph ∈ phs, ¬(ph.p_vaddr = 0 ∧ ph.p_paddr = 0) →
      CopyOp.mk ph.p_vaddr (base + ph.p_offset) ph.p_filesz ∈ load_segments base phs) ∧
    (∀ op ∈ load_segments base phs, ∃ ph, ph ∈ phs ∧
      ¬(ph.p_vaddr = 0 ∧ ph.p_paddr = 0) ∧
      op = CopyOp.mk ph.p_vaddr (base + ph.p_offset) ph.p_filesz) := by
  induction phs with
  | nil =>
    exact ⟨fun ph h => absurd h (List.not_mem_nil ph),
           fun op h => absurd h (List.not_mem_nil op)⟩
  | cons q rest ih =>
    constructor
    · intro ph hmem hnz
      rcases List.mem_cons.mp hmem with hq | hr
      · subst hq
        simp only [load_segments, if_neg hnz]
        exact List.mem_cons_self _ _
      · have hin := ih.1 ph hr hnz
        simp only [load_segments]
        split
        · exact hin
        · exact List.mem_cons_of_mem _ hin
    · intro op hop
      simp only [load_segments] at hop
      split at hop
      · obtain ⟨ph, hmem, hnz, heq⟩ := ih.2 op hop
        exact ⟨ph, List.mem_cons_of_mem _ hmem, hnz, heq⟩
      · rcases List.mem_cons.mp hop with hq | hr
        · rename_i hcond
          exact ⟨q, List.mem_cons_self _ _, hcond, hq⟩
        · obtain ⟨ph, hmem, hnz, heq⟩ := ih.2 op hr
          exact ⟨ph, List.mem_cons_of_mem _ hmem, hnz, heq⟩

theorem c1_load_segments_copy_exactly_witness :
    CopyOp.mk 0x200000 (0x100 + 0x1000) 0x10 ∈ load_segments 0x100 [ph_demo, ph_zero] :=
  (c1_load_segments_copy_exactly 0x100 [ph_demo, ph_zero]).1 ph_demo
    (by decide) (by decide)

/-- C3: on a regular, readable, parseable image whose section names all
resolve, the loader returns exactly the parsed entry address when it
fits the native pointer width, and panics (fatal, no entry returned)
when it does not — no silent truncation. -/
theorem c3_entry_address_conversion (mem : Nat → Nat) (f : KernelFileModel)
    (base ks b : Nat) (obj : ElfObj)
    (hinfo : f.info = Except.ok ks) (hty : f.ftype = Except.ok FType.regular)
    (hread : f.read_res = Except.ok b) (hparse : f.parse_res = Except.ok obj)
    (hsec : obj.section_names.all (fun n => n.isSome) = true) :
    (obj.e_entry < 2 ^ USIZE_BITS →
      load_kernel_image mem f base =
        Except.ok (obj.e_entry, load_segments base obj.program_headers,
          [Event.allocBuf 4096, Event.allocBuf (ks + 1)])) ∧
    (2 ^ USIZE_BITS ≤ obj.e_entry →
      load_kernel_image mem f base =
        Except.error "unable to convert to platform native entry point") := by
  constructor
  · intro hlt
    unfold load_kernel_image
    simp [hinfo, hty, hparse, hread, usize_try_from, hlt, hsec]
  · intro hge
    have hnlt : ¬ obj.e_entry < 2 ^ USIZE_BITS := Nat.not_lt.mpr hge
    unfold load_kernel_image
    simp [hinfo, hty, hparse, hread, usize_try_from, hnlt]

theorem c3_entry_address_conversion_witness :
    load_kernel_image memZero kf_ok 0x100 =
      Except.ok (0x200000, load_segments 0x100 [ph_demo],
        [Event.allocBuf 4096, Event.allocBuf 17]) ∧
    load_kernel_image memZero kf_big 0x100 =
      Except.error "unable to convert to platform native entry point" :=
  ⟨(c3_entry_address_conversion memZero kf_ok 0x100 0x10 0x10 elf_small
      rfl rfl rfl rfl rfl).1 (by decide),
   (c3_entry_address_conversion memZero kf_big 0x100 0x10 0x10 elf_big
      rfl rfl rfl rfl rfl).2 (by decide)⟩

/-- C5: the claim says `load_kernel_image` fails fatally on an
unparseable binary image (and on an unreadable file, whose
zero-initialized image buffer is likewise unparseable).  The code does
not: when `goblin::elf::Elf::parse` fails, the error is only logged
(`error!`, main.rs line 310) and the function falls through and
returns the initial `entry_point = 0x0` as a normal entry address —
`efi_main` then jumps to address 0.  This theorem evaluates the model
at such a failing input: a regular, readable 16-byte file with
unparseable contents yields a normal `ok` result with entry 0, not a
fatal error. -/
theorem c5_parse_failure_returns_entry_zero :
    load_kernel_image memZero kf_parse_fail 0x100 =
      Except.ok (0, [], [Event.allocBuf 4096, Event.allocBuf 17]) := rfl

/-- C6: for any directory listing, of any length and in any order, that
contains an entry whose attribute equals the ARCHIVE mark and whose
length-truncated name equals the fixed kernel name — that name matching
exactly once across the listing — the locator returns a read-mode
handle to that file name. -/
theorem c6_locator_returns_kernel_handle (mem : Nat → Nat) (n : Nat)
    (entries : List DirEntry) (e : DirEntry)
    (hn : n ≠ 0) (he : e ∈ entries)
    (hattr : e.attr = FileAttribute_ARCHIVE)
    (hname : trunc_name e.name = EFI_KERNEL_NAME)
    (huniq : (entries.filter
      (fun x => trunc_name x.name == EFI_KERNEL_NAME)).length = 1) :
    get_kernel_image_handle mem n entries =
      Except.ok (some (OpenedFile.mk EFI_KERNEL_NAME FileMode.read
        FileAttribute_READ_ONLY), [Event.allocBuf 128]) := by
  have hscan : scan_loop false entries = true := by
    rw [scan_loop_spec]
    simp only [Bool.false_or, List.any_eq_true]
    exact ⟨e, he, by simp [is_kernel_entry, hattr, hname]⟩
  simp [get_kernel_image_handle, hn, hscan]

theorem c6_locator_returns_kernel_handle_witness :
    get_kernel_image_handle memZero 1 demo_listing =
      Except.ok (some (OpenedFile.mk EFI_KERNEL_NAME FileMode.read
        FileAttribute_READ_ONLY), [Event.allocBuf 128]) :=
  c6_locator_returns_kernel_handle memZero 1 demo_listing dir_kernel
    (by decide) (by decide) (by decide) (by decide) (by decide)

/-- C7: for a directory listing in which no entry's truncated name
matches the fixed kernel name, the scan consumes the listing to the
end-of-directory signal and the locator returns the not-found result
(`none`) as a normal value — it neither panics nor halts itself. -/
theorem c7_locator_not_found_clean (mem : Nat → Nat) (n : Nat)
    (entries : List DirEntry) (hn : n ≠ 0)
    (hnone : ∀ e ∈ entries, trunc_name e.name ≠ EFI_KERNEL_NAME) :
    get_kernel_image_handle mem n entries =
      Except.ok (none, [Event.allocBuf 128]) := by
  have hscan : scan_loop false entries = false := by
    rw [scan_loop_spec, Bool.false_or, List.any_eq_false]
    intro e he
    simp only [is_kernel_entry, Bool.and_eq_true, beq_iff_eq, not_and]
    intro _ hc
    exact hnone e he hc
  simp [get_kernel_image_handle, hn, hscan]

theorem c7_locator_not_found_clean_witness :
    get_kernel_image_handle memZero 1 [dir_readme, dir_log] =
      Except.ok (none, [Event.allocBuf 128]) :=
  c7_locator_not_found_clean memZero 1 [dir_readme, dir_log]
    (by decide) (by decide)

/-- C9: the scan's candidate test is exact equality with the ARCHIVE
attribute value, so an entry carrying the ARCHIVE bit together with any
further attribute bit fails the test, its name is never compared, and
its presence anywhere in the listing cannot change the locator's
result. -/
theorem c9_extra_attribute_bits_never_match (e : DirEntry)
    (harch : e.attr.testBit 5 = true)
    (hextra : e.attr ≠ FileAttribute_ARCHIVE) :
    is_kernel_entry e = false ∧
    ∀ (mem : Nat → Nat) (n : Nat) (pre post : List DirEntry),
      get_kernel_image_handle mem n (pre ++ e :: post) =
        get_kernel_image_handle mem n (pre ++ post) := by
  have hne : (e.attr == FileAttribute_ARCHIVE) = false := by
    simp [hextra]
  constructor
  · simp [is_kernel_entry, hne]
  · intro mem n pre post
    have hsc : scan_loop false (pre ++ e :: post) = scan_loop false (pre ++ post) := by
      rw [scan_loop_spec, scan_loop_spec]
      simp [List.any_append, List.any_cons, is_kernel_entry, hne]
    simp [get_kernel_image_handle, hsc]

theorem c9_extra_attribute_bits_never_match_witness :
    is_kernel_entry dir_kernel_ro = false ∧
    get_kernel_image_handle memZero 1 ([dir_readme] ++ dir_kernel_ro :: [dir_log]) =
      get_kernel_image_handle memZero 1 ([dir_readme] ++ [dir_log]) :=
  ⟨(c9_extra_attribute_bits_never_match dir_kernel_ro (by decide) (by decide)).1,
   (c9_extra_attribute_bits_never_match dir_kernel_ro (by decide) (by decide)).2
     memZero 1 [dir_readme] [dir_log]⟩

/-- C2 (amended): in any successful execution trace of the pipeline
the boot-services-exit call occurs exactly once, no firmware
allocation call follows it, and it happens only after the memory-map
buffer and the handoff structure have been sized and allocated. -/
theorem c2_exit_boot_services_ordering (mem : Nat → Nat) (p : BootParams)
    (tr : List Event) (eb : EBootTable)
    (h : efi_main mem p = Except.ok (tr, eb)) :
    (tr.filter isExitEvent).length = 1 ∧
    (after_first_exit tr).filter isAllocEvent = [] ∧
    Event.allocBuf (mmap_vec_size p.map_size) ∈ before_first_exit tr ∧
    Event.allocEBoot ∈ before_first_exit tr := by
  obtain ⟨ks, entry, hks, htr, heb⟩ := efi_main_ok_shape mem p tr eb h
  subst htr
  refine ⟨rfl, rfl, ?_, ?_⟩
  · simp [before_first_exit, List.takeWhile, isExitEvent]
  · simp [before_first_exit, List.takeWhile, isExitEvent]

theorem c2_exit_boot_services_ordering_witness :
    (tr_demo.filter isExitEvent).length = 1 ∧
    (after_first_exit tr_demo).filter isAllocEvent = [] ∧
    Event.allocBuf (mmap_vec_size boot_demo.map_size) ∈ before_first_exit tr_demo ∧
    Event.allocEBoot ∈ before_first_exit tr_demo :=
  c2_exit_boot_services_ordering memZero boot_demo tr_demo eb_demo rfl

/-- C2 counterexample to the claim as stated: the claim's first
conjunct says the boot-services-exit call never follows a firmware
allocation call, yet in the concrete successful run `boot_demo` the
sole exit call is preceded by four firmware allocations (the directory
scratch buffer, the file-info buffer, the image buffer, the memory-map
buffer) and the handoff-table allocation — the exit call does follow
allocation calls. -/
theorem c2_claim_counterexample :
    efi_main memZero boot_demo = Except.ok (tr_demo, eb_demo) ∧
    (tr_demo.filter isExitEvent).length = 1 ∧
    ((before_first_exit tr_demo).filter isAllocEvent).length = 5 :=
  ⟨rfl, by decide, by decide⟩

/-- C8: the handoff structure is created exactly once and before the
boot-services exit, with all four slots empty at creation; one single
update event happens, immediately after the exit succeeds, and the
resulting table has all four slots filled. -/
theorem c8_eboot_table_lifecycle (mem : Nat → Nat) (p : BootParams)
    (tr : List Event) (eb : EBootTable)
    (h : efi_main mem p = Except.ok (tr, eb)) :
    (EBootTable.new.sys_table = none ∧ EBootTable.new.mmap_buf = none ∧
      EBootTable.new.mmap_len = none ∧ EBootTable.new.mmap_cap = none) ∧
    (tr.filter isEBootAllocEvent).length = 1 ∧
    Event.allocEBoot ∈ before_first_exit tr ∧
    (tr.filter isUpdateEvent).length = 1 ∧
    (after_first_exit tr).head? = some Event.updateEBoot ∧
    (eb.sys_table.isSome ∧ eb.mmap_buf.isSome ∧
      eb.mmap_len.isSome ∧ eb.mmap_cap.isSome) := by
  obtain ⟨ks, entry, hks, htr, heb⟩ := efi_main_ok_shape mem p tr eb h
  subst htr
  subst heb
  refine ⟨⟨rfl, rfl, rfl, rfl⟩, rfl, ?_, rfl, rfl, ⟨rfl, rfl, rfl, rfl⟩⟩
  simp [before_first_exit, List.takeWhile, isExitEvent]

theorem c8_eboot_table_lifecycle_witness :
    (EBootTable.new.sys_table = none ∧ EBootTable.new.mmap_buf = none ∧
      EBootTable.new.mmap_len = none ∧ EBootTable.new.mmap_cap = none) ∧
    (tr_demo.filter isEBootAllocEvent).length = 1 ∧
    Event.allocEBoot ∈ before_first_exit tr_demo ∧
    (tr_demo.filter isUpdateEvent).length = 1 ∧
    (after_first_exit tr_demo).head? = some Event.updateEBoot ∧
    (eb_demo.sys_table.isSome ∧ eb_demo.mmap_buf.isSome ∧
      eb_demo.mmap_len.isSome ∧ eb_demo.mmap_cap.isSome) :=
  c8_eboot_table_lifecycle memZero boot_demo tr_demo eb_demo rfl

end NewtStub
